import Mathlib

/-!
Shallow embedding of `src/trading_analyze/data_pipeline/validator.py`
(class `DataValidator`) and proofs about the claims of the
natural-language specification of its validation core.

Modelling conventions:
* The on-disk state a validation run can observe is a `Disk` record:
  existence flags for the required directories and files, the parsed
  content of `features/data.csv` (header and rows), flags telling
  whether a full `pd.read_csv`, a bounded `pd.read_csv(nrows=10)` and
  `pd.to_datetime` on the datetime column would succeed, the lines of
  `instruments/all.txt`, and whether the report file is writable.
* Python exceptions are modelled with `Except String`: each helper whose
  Python body sits inside a `try`/`except` is a total function defined as
  the explicit catch of an `Except`-valued body, exactly where the source
  catches.
* Numeric cells are `Option ℚ`: `none` models a null/NaN cell, and pandas
  comparisons involving NaN yield `False`, which `le0`/`optLt`/`optGt`
  reproduce.  The `instrument` and `datetime` cells are modelled as
  always present; a null there would only feed the same null-value check.
* `datetime` values are modelled as already-parsed integer day indices
  (the checks only use ordering, day differences and distinct counts).
-/

namespace TA

/-- Severity tag of one quality finding, the `'type'` key of the issue
dicts built by `_check_data_quality`. -/
inductive IssueType where
  | critical
  | warning
deriving DecidableEq

/-- One entry of `issues_detail`: a Python dict with mandatory keys
`'type'` and `'issue'` and optional keys `'column'`, `'count'`,
`'detail'` (per-column null counts), `'instruments'`
(per-instrument gap/extreme counts) and `'error'`. -/
structure Issue where
  type : IssueType
  issue : String
  column : Option String := none
  count : Option Nat := none
  detail : Option (List (String × Nat)) := none
  instruments : Option (List (String × Nat)) := none
  error : Option String := none
deriving DecidableEq

/-- The dict returned by `_check_data_quality` (validator.py lines
164-168): counters plus the ordered issue list. -/
structure QualityResults where
  critical_issues : Nat
  warnings : Nat
  issues_detail : List Issue
deriving DecidableEq

/-- The `date_range` sub-dict of `stats` (lines 141-145). `none` in
`start`/`stop` models pandas `NaT` on an empty table. -/
structure DateRange where
  start : Option Int
  stop : Option Int
  trading_days : Nat
deriving DecidableEq

/-- The `stats` dict built by `_validate_data_files` (lines 138-148). -/
structure Stats where
  total_records : Nat
  instruments_count : Nat
  date_range : DateRange
  missing_in_data : Nat
  missing_in_file : Nat
deriving DecidableEq

/-- The `validation_results` dict of `validate_qlib_data` (lines 33-39).
`stats = none` models the initial empty dict `{}`. -/
structure ValidationResults where
  is_valid : Bool
  errors : List String
  warnings : List String
  stats : Option Stats
  data_quality : QualityResults
deriving DecidableEq

/-- One row of `features/data.csv`.  Cell values of the five numeric
columns are `Option ℚ` (`none` = null/NaN). -/
structure Row where
  instrument : String
  datetime : Int
  popen : Option ℚ
  phigh : Option ℚ
  plow : Option ℚ
  pclose : Option ℚ
  pvolume : Option ℚ
deriving DecidableEq

/-- A loaded pandas DataFrame: the header column names and the rows. -/
structure Csv where
  cols : List String
  rows : List Row
deriving DecidableEq

/-- The observable on-disk state of one data directory. -/
structure Disk where
  dirName : String
  featuresDirExists : Bool
  instrumentsDirExists : Bool
  dataCsvExists : Bool
  allTxtExists : Bool
  header : List String
  csvRows : List Row
  fullParseOk : Bool
  headParseOk : Bool
  datetimeParseOk : Bool
  instLines : List String
  allTxtReadable : Bool
  reportWritable : Bool
deriving DecidableEq

/-- `pd.read_csv(data_file)` on `features/data.csv` (lines 110 and 161):
raises when the file is missing or the full file fails to parse. -/
def readCsvFull (d : Disk) : Except String Csv :=
  if d.dataCsvExists = false then Except.error "FileNotFoundError: features/data.csv"
  else if d.fullParseOk = false then Except.error "ParserError: features/data.csv"
  else Except.ok ⟨d.header, d.csvRows⟩

/-- `pd.read_csv(data_file, nrows=10)` (line 351): the bounded read of
`quick_check`; it parses only the header and the first 10 rows, so it can
succeed on a file whose later rows are malformed. -/
def readCsvHead (d : Disk) : Except String Csv :=
  if d.dataCsvExists = false then Except.error "FileNotFoundError: features/data.csv"
  else if d.headParseOk = false then Except.error "ParserError: features/data.csv"
  else Except.ok ⟨d.header, d.csvRows.take 10⟩

/-- `open(instruments_file)` plus reading its lines (lines 121-123). -/
def readInstruments (d : Disk) : Except String (List String) :=
  if d.allTxtExists = false then Except.error "FileNotFoundError: instruments/all.txt"
  else if d.allTxtReadable = false then Except.error "OSError: instruments/all.txt"
  else Except.ok d.instLines

/-- The `required_columns` list of lines 113 and 352. -/
def required_columns : List String :=
  ["instrument", "datetime", "$open", "$high", "$low", "$close", "$volume"]

/-- The `price_columns` list of line 181. -/
def price_columns : List String := ["$open", "$high", "$low", "$close"]

/-- `_validate_directory_structure` (lines 78-103): pure existence
checks, never raises. -/
def _validate_directory_structure (d : Disk) : Bool :=
  let missing_dirs :=
    (if d.featuresDirExists then [] else ["features"]) ++
    (if d.instrumentsDirExists then [] else ["instruments"])
  let missing_files :=
    (if d.dataCsvExists then [] else ["features/data.csv"]) ++
    (if d.allTxtExists then [] else ["instruments/all.txt"])
  missing_dirs.length == 0 && missing_files.length == 0

/-- Python `str.strip()` on a line of `instruments/all.txt`: drop
leading and trailing whitespace. -/
def pyStrip (s : String) : String :=
  let l := s.data.dropWhile Char.isWhitespace
  ⟨(l.reverse.dropWhile Char.isWhitespace).reverse⟩

/-- `set(line.strip() for line in f if line.strip())` (line 123). -/
def instrumentsFromLines (ls : List String) : Finset String :=
  ((ls.map pyStrip).filter (fun s => s != "")).toFinset

/-- Column selection `data[c]` on one row, for the five numeric columns
the validator reads cell-wise. -/
def Row.col (r : Row) : String → Option ℚ
  | "$open" => r.popen
  | "$high" => r.phigh
  | "$low" => r.plow
  | "$close" => r.pclose
  | "$volume" => r.pvolume
  | _ => none

/-- Pandas elementwise `value <= 0` on one cell: `False` on NaN. -/
def le0 (v : Option ℚ) : Bool :=
  match v with
  | some x => decide (x ≤ 0)
  | none => false

/-- `(data[c] <= 0).sum()` (lines 185 and 196). -/
def countLeZero (data : Csv) (c : String) : Nat :=
  (data.rows.filter (fun r => le0 (Row.col r c))).length

/-- Pandas elementwise `a < b` on two cells: `False` when either is NaN. -/
def optLt (a b : Option ℚ) : Bool :=
  match a, b with
  | some x, some y => decide (x < y)
  | _, _ => false

/-- Pandas elementwise `a > b` on two cells: `False` when either is NaN. -/
def optGt (a b : Option ℚ) : Bool :=
  match a, b with
  | some x, some y => decide (x > y)
  | _, _ => false

/-- The row predicate of the OHLC logic check (lines 206-212):
`(high < low) | (high < open) | (high < close) | (low > open) | (low > close)`. -/
def rowIllogical (r : Row) : Bool :=
  optLt r.phigh r.plow || optLt r.phigh r.popen || optLt r.phigh r.pclose ||
  optGt r.plow r.popen || optGt r.plow r.pclose

/-- `illogical_prices` (line 212): the number of rows satisfying the
OHLC violation predicate. -/
def illogicalCount (data : Csv) : Nat :=
  (data.rows.filter rowIllogical).length

/-- Null count of one column for `data.isnull().sum()` (line 171).  Only
the five numeric columns are modelled cell-wise; `instrument`,
`datetime` and any extra columns are modelled as never null. -/
def nullCountIn (data : Csv) (c : String) : Nat :=
  if c = "$open" ∨ c = "$high" ∨ c = "$low" ∨ c = "$close" ∨ c = "$volume" then
    (data.rows.filter (fun r => (Row.col r c).isNone)).length
  else 0

/-- Per-column null counts, in header order. -/
def nullCounts (data : Csv) : List (String × Nat) :=
  data.cols.map (fun c => (c, nullCountIn data c))

/-- `null_counts.sum()` (line 172). -/
def totalNulls (data : Csv) : Nat :=
  ((nullCounts data).map Prod.snd).sum

/-- Stable insertion of a row into a list sorted by `datetime`. -/
def insertByDatetime (x : Row) : List Row → List Row
  | [] => [x]
  | y :: ys => if x.datetime < y.datetime then x :: y :: ys else y :: insertByDatetime x ys

/-- `instrument_data.sort_values('datetime')` (lines 226 and 250). -/
def sortByDatetime (rows : List Row) : List Row :=
  rows.foldl (fun acc r => insertByDatetime r acc) []

/-- Consecutive differences of a list; `.diff()` yields NaN for the
first element, and `NaN > 7` is `False`, so only the consecutive pairs
matter. -/
def consecutiveDiffs (l : List Int) : List Int :=
  (l.zip l.tail).map (fun p => p.2 - p.1)

/-- `(instrument_data['datetime'].diff().dt.days > 7).sum()` for one
instrument (lines 229-230). -/
def largeGapsOf (rows : List Row) : Nat :=
  ((consecutiveDiffs ((sortByDatetime rows).map Row.datetime)).filter
    (fun g => decide (g > 7))).length

/-- `data['instrument'].unique()` (lines 224 and 248): first-occurrence
order, duplicates removed. -/
def uniqueInstruments (data : Csv) : List String :=
  (data.rows.map Row.instrument).eraseDups

/-- The `discontinuity_issues` list of lines 223-236. -/
def discontinuityIssues (data : Csv) : List (String × Nat) :=
  (uniqueInstruments data).filterMap (fun inst =>
    let instrument_data := data.rows.filter (fun r => r.instrument == inst)
    let large_gaps := largeGapsOf instrument_data
    if large_gaps > 0 then some (inst, large_gaps) else none)

/-- One step of `pct_change().abs() > 0.3` on a pair of consecutive
close prices (lines 252-253), computed on numerators/denominators so it
evaluates in the kernel.  For previous close `p = 0`, pandas produces
`inf` (or NaN when the current close is also 0), so the pair counts as
extreme exactly when the current close is nonzero; for `p ≠ 0` the test
is `|(c - p) / p| > 3 / 10`, which lemma `extremeStep_iff` below proves
this integer formulation equal to. -/
def extremeStep (p c : ℚ) : Bool :=
  if p.num = 0 then c.num ≠ 0
  else 10 * (c.num * (p.den : Int) - p.num * (c.den : Int)).natAbs
         > 3 * ((c.den : Int) * p.num).natAbs

/-- `extremeStep` on cells: pairs involving NaN are not counted. -/
def optExtreme (p c : Option ℚ) : Bool :=
  match p, c with
  | some x, some y => extremeStep x y
  | _, _ => false

/-- `(instrument_data['$close'].pct_change().abs() > 0.3).sum()` for one
instrument (lines 252-253). -/
def extremeCountOf (rows : List Row) : Nat :=
  let closes := (sortByDatetime rows).map Row.pclose
  ((closes.zip closes.tail).filter (fun pr => optExtreme pr.1 pr.2)).length

/-- The `extreme_changes` list of lines 247-259. -/
def extremeChanges (data : Csv) : List (String × Nat) :=
  (uniqueInstruments data).filterMap (fun inst =>
    let instrument_data := data.rows.filter (fun r => r.instrument == inst)
    let extreme_count := extremeCountOf instrument_data
    if extreme_count > 0 then some (inst, extreme_count) else none)

/-- `critical_issues += 1` followed by appending an issue dict
(e.g. lines 173-178). -/
def addCritical (q : QualityResults) (i : Issue) : QualityResults :=
  { critical_issues := q.critical_issues + 1
    warnings := q.warnings
    issues_detail := q.issues_detail ++ [i] }

/-- `warnings += 1` followed by appending an issue dict
(e.g. lines 198-203). -/
def addWarning (q : QualityResults) (i : Issue) : QualityResults :=
  { critical_issues := q.critical_issues
    warnings := q.warnings + 1
    issues_detail := q.issues_detail ++ [i] }

/-- The `null_values` issue dict of lines 174-178. -/
def nullIssue (data : Csv) : Issue :=
  { type := IssueType.critical
    issue := "null_values"
    detail := some ((nullCounts data).filter (fun p => p.2 > 0)) }

/-- The `negative_prices` issue dict of lines 188-193. -/
def negIssue (c : String) (n : Nat) : Issue :=
  { type := IssueType.critical
    issue := "negative_prices"
    column := some c
    count := some n }

/-- The `zero_volume` issue dict of lines 199-203. -/
def zeroVolumeIssue (n : Nat) : Issue :=
  { type := IssueType.warning
    issue := "zero_volume"
    count := some n }

/-- The `illogical_ohlc` issue dict of lines 216-220. -/
def ohlcIssue (n : Nat) : Issue :=
  { type := IssueType.critical
    issue := "illogical_ohlc"
    count := some n }

/-- The `data_discontinuity` issue dict of lines 240-244. -/
def discontinuityIssue (l : List (String × Nat)) : Issue :=
  { type := IssueType.warning
    issue := "data_discontinuity"
    instruments := some l }

/-- The `extreme_price_changes` issue dict of lines 263-267. -/
def extremeIssue (l : List (String × Nat)) : Issue :=
  { type := IssueType.warning
    issue := "extreme_price_changes"
    instruments := some l }

/-- One iteration of the negative-price loop of lines 184-193, with the
`data[col]` access already checked. -/
def negStepPure (data : Csv) (q : QualityResults) (c : String) : QualityResults :=
  let negative_count := countLeZero data c
  if negative_count > 0 then addCritical q (negIssue c negative_count) else q

/-- Body of the `try` of `_check_data_quality` (lines 159-273), after
the `pd.read_csv` succeeded.  `KeyError`s of the column accesses
(`datetime`, the four price columns, `$volume`, `instrument`) and a
`to_datetime` failure are raised in source order; since the catch of
`_check_data_quality` discards everything accumulated so far, checking a
group of column accesses before the pure computation that uses them is
observationally equal to the interleaved source. -/
def qualityAfterRead (d : Disk) (data : Csv) : Except String QualityResults :=
  if "datetime" ∉ data.cols then Except.error "KeyError: datetime"
  else if d.datetimeParseOk = false then Except.error "DateParseError: datetime"
  else if "$open" ∉ data.cols then Except.error "KeyError: $open"
  else if "$high" ∉ data.cols then Except.error "KeyError: $high"
  else if "$low" ∉ data.cols then Except.error "KeyError: $low"
  else if "$close" ∉ data.cols then Except.error "KeyError: $close"
  else if "$volume" ∉ data.cols then Except.error "KeyError: $volume"
  else if "instrument" ∉ data.cols then Except.error "KeyError: instrument"
  else
    let q0 : QualityResults := ⟨0, 0, []⟩
    let q1 := if totalNulls data > 0 then addCritical q0 (nullIssue data) else q0
    let q2 := price_columns.foldl (negStepPure data) q1
    let zero_volume_count := countLeZero data "$volume"
    let q3 := if zero_volume_count > 0 then addWarning q2 (zeroVolumeIssue zero_volume_count) else q2
    let q4 := if illogicalCount data > 0 then addCritical q3 (ohlcIssue (illogicalCount data)) else q3
    let q5 := if discontinuityIssues data ≠ [] then addWarning q4 (discontinuityIssue (discontinuityIssues data)) else q4
    let q6 := if extremeChanges data ≠ [] then addWarning q5 (extremeIssue (extremeChanges data)) else q5
    Except.ok q6

/-- The full `try` body of `_check_data_quality`: the read of line 161
followed by the checks. -/
def checkDataQualityBody (d : Disk) : Except String QualityResults :=
  match readCsvFull d with
  | Except.error e => Except.error e
  | Except.ok data => qualityAfterRead d data

/-- The degraded result built by the `except` arm of lines 275-281. -/
def qualityFailure (e : String) : QualityResults :=
  ⟨1, 0, [{ type := IssueType.critical, issue := "quality_check_failed", error := some e }]⟩

/-- `_check_data_quality` (lines 157-281): the catch sits at the
function boundary, so the checker never propagates an exception. -/
def _check_data_quality (d : Disk) : QualityResults :=
  match checkDataQualityBody d with
  | Except.ok q => q
  | Except.error e => qualityFailure e

/-- Body of the `try` of `_validate_data_files` (lines 107-151) after
the read of line 110 succeeded: required-column check, instrument-list
cross reference, `pd.to_datetime` (line 137) and the stats dict. -/
def dataFilesAfterRead (d : Disk) (data : Csv) : Except String (Bool × Option Stats) :=
  let missing_columns := required_columns.filter (fun c => !(data.cols.contains c))
  if missing_columns ≠ [] then Except.ok (false, none)
  else
    match readInstruments d with
    | Except.error e => Except.error e
    | Except.ok lines =>
      let instruments_from_file := instrumentsFromLines lines
      let instruments_in_data := (data.rows.map Row.instrument).toFinset
      let missing_in_data := instruments_from_file \ instruments_in_data
      let missing_in_file := instruments_in_data \ instruments_from_file
      if d.datetimeParseOk = false then Except.error "DateParseError: datetime"
      else
        let dates := data.rows.map Row.datetime
        Except.ok (true, some
          { total_records := data.rows.length
            instruments_count := instruments_in_data.card
            date_range :=
              { start := dates.min?
                stop := dates.max?
                trading_days := dates.toFinset.card }
            missing_in_data := missing_in_data.card
            missing_in_file := missing_in_file.card })

/-- The full `try` body of `_validate_data_files`. -/
def validateDataFilesBody (d : Disk) : Except String (Bool × Option Stats) :=
  match readCsvFull d with
  | Except.error e => Except.error e
  | Except.ok data => dataFilesAfterRead d data

/-- `_validate_data_files` (lines 105-155): any exception in the body is
caught and becomes `(False, {})`. -/
def _validate_data_files (d : Disk) : Bool × Option Stats :=
  match validateDataFilesBody d with
  | Except.ok r => r
  | Except.error _ => (false, none)

/-- Python `str()` of a `dict` mapping strings to ints, as written by
`f.write(f"详情: ...")` on the null-count payload. -/
def pyDictStr (l : List (String × Nat)) : String :=
  let quote := String.singleton (Char.ofNat 39)
  let items := l.map (fun p => quote ++ p.1 ++ quote ++ ": " ++ toString p.2)
  "\x7b" ++ String.intercalate ", " items ++ "\x7d"

/-- Rendering of the `'type'` value in the report. -/
def issueTypeStr : IssueType → String
  | IssueType.critical => "critical"
  | IssueType.warning => "warning"

/-- One issue block of the report (lines 322-329): type, kind, then the
`count` and `detail` lines when those keys are present. -/
def issueBlock (i : Issue) : String :=
  "类型: " ++ issueTypeStr i.type ++ "\n" ++
  "问题: " ++ i.issue ++ "\n" ++
  (match i.count with
   | some n => "数量: " ++ toString n ++ "\n"
   | none => "") ++
  (match i.detail with
   | some dl => "详情: " ++ pyDictStr dl ++ "\n"
   | none => "") ++
  "\n"

/-- Rendering of a possibly-missing date bound; `NaT` is what pandas
prints for the minimum of an empty datetime column. -/
def optIntStr : Option Int → String
  | some n => toString n
  | none => "NaT"

/-- The enumerated errors/warnings blocks of lines 297-307: nothing is
written when the list is empty. -/
def linesBlock (title : String) (items : List String) : String :=
  if items = [] then ""
  else title ++ String.join (items.map (fun e => "- " ++ e ++ "\n")) ++ "\n"

/-- The stats block of lines 309-318; an empty `stats` dict is falsy so
nothing is written. -/
def statsBlock : Option Stats → String
  | none => ""
  | some st =>
    "=== 数据统计 ===\n" ++
    "总记录数: " ++ toString st.total_records ++ "\n" ++
    "股票数量: " ++ toString st.instruments_count ++ "\n" ++
    "日期范围: " ++ optIntStr st.date_range.start ++ " 至 " ++ optIntStr st.date_range.stop ++ "\n" ++
    "交易日数: " ++ toString st.date_range.trading_days ++ "\n" ++
    "\n"

/-- The quality-details block of lines 320-329. -/
def qualityBlock (q : QualityResults) : String :=
  if q.issues_detail = [] then ""
  else "=== 数据质量详情 ===\n" ++ String.join (q.issues_detail.map issueBlock)

/-- Everything the report writes after the timestamp (lines 291-329). -/
def reportAfterTimestamp (results : ValidationResults) (dataDir : String) : String :=
  "\n" ++ "数据目录: " ++ dataDir ++ "\n\n" ++
  "总体状态: " ++ (if results.is_valid then "✓ 通过" else "✗ 失败") ++ "\n" ++
  "错误数量: " ++ toString results.errors.length ++ "\n" ++
  "警告数量: " ++ toString results.warnings.length ++ "\n\n" ++
  linesBlock "=== 错误信息 ===\n" results.errors ++
  linesBlock "=== 警告信息 ===\n" results.warnings ++
  statsBlock results.stats ++
  qualityBlock results.data_quality

/-- The report text up to and including the timestamp label
(lines 289-290). -/
def reportPrefix : String := "=== QLIB 数据验证报告 ===\n\n验证时间: "

/-- The full report text as a function of the results, the data
directory and the formatted `pd.Timestamp.now()` value. -/
def reportText (results : ValidationResults) (dataDir now : String) : String :=
  reportPrefix ++ now ++ reportAfterTimestamp results dataDir

/-- `_generate_validation_report` (lines 283-334): returns the bytes
written to `validation_report.txt`, or `none` when writing raises (the
failure is caught and only logged). -/
def _generate_validation_report (d : Disk) (results : ValidationResults) (now : String) :
    Option String :=
  if d.reportWritable then some (reportText results d.dirName now) else none

/-- `validate_qlib_data` (lines 25-76).  The three checks are total
functions (each catches its own exceptions), so the `except` arm of
lines 63-66 is unreachable in the model; `now` is the formatted
`pd.Timestamp.now()` of line 290.  Returns the results dict and the
report file content (`none` when report writing failed). -/
def validate_qlib_data (d : Disk) (now : String) : ValidationResults × Option String :=
  let init : ValidationResults := ⟨true, [], [], none, ⟨0, 0, []⟩⟩
  let structure_valid := _validate_directory_structure d
  let r1 :=
    if structure_valid then init
    else { init with is_valid := false, errors := init.errors ++ ["目录结构不完整"] }
  let dv := _validate_data_files d
  let r2 :=
    if dv.1 then { r1 with stats := dv.2 }
    else { r1 with is_valid := false, errors := r1.errors ++ ["数据文件验证失败"] }
  let quality_results := _check_data_quality d
  let r3 := { r2 with data_quality := quality_results }
  let r4 := if quality_results.critical_issues > 0 then { r3 with is_valid := false } else r3
  (r4, _generate_validation_report d r4 now)

/-- The `try` body of `quick_check` (lines 342-354). -/
def quickCheckBody (d : Disk) : Except String Bool :=
  if !(d.dataCsvExists && d.allTxtExists) then Except.ok false
  else
    match readCsvHead d with
    | Except.error e => Except.error e
    | Except.ok data => Except.ok (required_columns.all (fun c => data.cols.contains c))

/-- `quick_check` (lines 336-357): any exception collapses to `False`. -/
def quick_check (d : Disk) : Bool :=
  match quickCheckBody d with
  | Except.ok b => b
  | Except.error _ => false

/-- The required-column presence check of `validate()` as a standalone
predicate: per lines 107-118 it runs on the table produced by the full
read of line 110, so it can only pass when that read succeeds. -/
def validateColumnCheckPasses (d : Disk) : Bool :=
  match readCsvFull d with
  | Except.error _ => false
  | Except.ok data => required_columns.all (fun c => data.cols.contains c)

/-- A copy of the disk restricted to the first `n` feature rows, used to
state that `quick_check` only depends on a bounded prefix of the table. -/
def truncateRows (d : Disk) (n : Nat) : Disk :=
  { d with csvRows := d.csvRows.take n }

/-- A copy of the disk with the instrument list replaced, used to state
that the instrument list is advisory. -/
def setInstruments (d : Disk) (ls : List String) : Disk :=
  { d with instLines := ls }

/-! Flat description of the quality checker's successful output, used to
reason about the accumulation chain of `qualityAfterRead`: each check
contributes an (at most singleton) segment of `issues_detail`, in source
order. -/

/-- Contribution of the null check (lines 170-178). -/
def nullSeg (data : Csv) : List Issue :=
  if totalNulls data > 0 then [nullIssue data] else []

/-- Contributions of the negative-price loop over `cols`
(lines 183-193). -/
def negIssuesOn (data : Csv) (cols : List String) : List Issue :=
  cols.filterMap (fun c =>
    if countLeZero data c > 0 then some (negIssue c (countLeZero data c)) else none)

/-- Contribution of the zero-volume check (lines 195-203). -/
def volSeg (data : Csv) : List Issue :=
  if countLeZero data "$volume" > 0 then [zeroVolumeIssue (countLeZero data "$volume")] else []

/-- Contribution of the OHLC logic check (lines 205-220). -/
def ohlcSeg (data : Csv) : List Issue :=
  if illogicalCount data > 0 then [ohlcIssue (illogicalCount data)] else []

/-- Contribution of the discontinuity check (lines 222-244). -/
def discSeg (data : Csv) : List Issue :=
  if discontinuityIssues data ≠ [] then [discontinuityIssue (discontinuityIssues data)] else []

/-- Contribution of the extreme-move check (lines 246-267). -/
def extSeg (data : Csv) : List Issue :=
  if extremeChanges data ≠ [] then [extremeIssue (extremeChanges data)] else []

/-- The quality result on the successful path, as segment concatenation
with the counters written as segment lengths.  The lemma
`qualityAfterRead_ok` proves that the accumulation chain of
`qualityAfterRead` produces exactly this value. -/
def qualitySpec (data : Csv) : QualityResults :=
  { critical_issues :=
      (nullSeg data).length + (negIssuesOn data price_columns).length + (ohlcSeg data).length
    warnings := (volSeg data).length + (discSeg data).length + (extSeg data).length
    issues_detail :=
      nullSeg data ++ negIssuesOn data price_columns ++ volSeg data ++ ohlcSeg data ++
        discSeg data ++ extSeg data }

/-- Predicate selecting `issues_detail` entries recorded as critical. -/
def isCritIssue (i : Issue) : Bool := i.type == IssueType.critical

/-- Predicate selecting `issues_detail` entries recorded as warnings. -/
def isWarnIssue (i : Issue) : Bool := i.type == IssueType.warning

/-- Predicate selecting the `negative_prices` issue of one price column. -/
def isNegIssueFor (c : String) (i : Issue) : Bool :=
  i.issue == "negative_prices" && i.column == some c

/-- Predicate selecting the `illogical_ohlc` issue. -/
def isOhlcIssue (i : Issue) : Bool := i.issue == "illogical_ohlc"

/-! Read-counting instrumentation for the frame claim: the same control
flow with an explicit counter of `pd.read_csv` calls on
`features/data.csv`. -/

/-- One feature-table read (`pd.read_csv(data_file)`, lines 110/161):
the read attempt happens exactly once per call, before any branching. -/
def readFeatureCsvCounted (d : Disk) (n : Nat) : Except String Csv × Nat :=
  (readCsvFull d, n + 1)

/-- `_validate_data_files` with the feature-read counter threaded. -/
def validateDataFilesCounted (d : Disk) (n : Nat) : (Bool × Option Stats) × Nat :=
  let rn := readFeatureCsvCounted d n
  match rn.1 with
  | Except.error _ => ((false, none), rn.2)
  | Except.ok data =>
    match dataFilesAfterRead d data with
    | Except.ok r => (r, rn.2)
    | Except.error _ => ((false, none), rn.2)

/-- `_check_data_quality` with the feature-read counter threaded. -/
def checkDataQualityCounted (d : Disk) (n : Nat) : QualityResults × Nat :=
  let rn := readFeatureCsvCounted d n
  match rn.1 with
  | Except.error e => (qualityFailure e, rn.2)
  | Except.ok data =>
    match qualityAfterRead d data with
    | Except.ok q => (q, rn.2)
    | Except.error e => (qualityFailure e, rn.2)

/-- `validate_qlib_data` with the feature-read counter threaded.
`_validate_directory_structure` performs only `Path.exists` checks and
`_generate_validation_report` only writes, so neither reads the feature
table. -/
def validateQlibDataCounted (d : Disk) (now : String) (n : Nat) :
    (ValidationResults × Option String) × Nat :=
  let init : ValidationResults := ⟨true, [], [], none, ⟨0, 0, []⟩⟩
  let structure_valid := _validate_directory_structure d
  let r1 :=
    if structure_valid then init
    else { init with is_valid := false, errors := init.errors ++ ["目录结构不完整"] }
  let dvn := validateDataFilesCounted d n
  let r2 :=
    if dvn.1.1 then { r1 with stats := dvn.1.2 }
    else { r1 with is_valid := false, errors := r1.errors ++ ["数据文件验证失败"] }
  let qn := checkDataQualityCounted d dvn.2
  let r3 := { r2 with data_quality := qn.1 }
  let r4 := if qn.1.critical_issues > 0 then { r3 with is_valid := false } else r3
  ((r4, _generate_validation_report d r4 now), qn.2)

/-! Concrete disks used by witnesses and counterexamples. -/

/-- Convenience constructor for a fully-populated feature row. -/
def mkRow (inst : String) (dt : Int) (o h l c v : ℚ) : Row :=
  ⟨inst, dt, some o, some h, some l, some c, some v⟩

/-- A clean two-instrument, four-row feature table. -/
def goodRows : List Row :=
  [mkRow "AAPL" 0 100 110 90 105 1000,
   mkRow "AAPL" 1 105 112 95 108 1200,
   mkRow "MSFT" 0 200 210 190 205 800,
   mkRow "MSFT" 1 205 212 195 207 900]

/-- A directory with the clean table whose instrument list carries one
extra symbol that never occurs in the data. -/
def scenarioDiskExtra : Disk :=
  { dirName := "./qlib_data"
    featuresDirExists := true
    instrumentsDirExists := true
    dataCsvExists := true
    allTxtExists := true
    header := required_columns
    csvRows := goodRows
    fullParseOk := true
    headParseOk := true
    datetimeParseOk := true
    instLines := ["AAPL", "MSFT", "GOOG"]
    allTxtReadable := true
    reportWritable := true }

/-- A directory with nothing in it (but a writable report location). -/
def emptyDiskW : Disk :=
  { dirName := "./qlib_data"
    featuresDirExists := false
    instrumentsDirExists := false
    dataCsvExists := false
    allTxtExists := false
    header := []
    csvRows := []
    fullParseOk := false
    headParseOk := false
    datetimeParseOk := false
    instLines := []
    allTxtReadable := false
    reportWritable := true }

/-- A directory whose feature table parses for the first rows but fails
a full parse (e.g. a malformed line late in the file). -/
def lateMalformedDisk : Disk :=
  { dirName := "./qlib_data"
    featuresDirExists := true
    instrumentsDirExists := true
    dataCsvExists := true
    allTxtExists := true
    header := required_columns
    csvRows := []
    fullParseOk := false
    headParseOk := true
    datetimeParseOk := true
    instLines := ["AAPL"]
    allTxtReadable := true
    reportWritable := true }

/-- A one-row table with a negative close (which forces a nonpositive
low as well, keeping the OHLC ordering itself consistent). -/
def badPriceDisk : Disk :=
  { dirName := "./qlib_data"
    featuresDirExists := true
    instrumentsDirExists := true
    dataCsvExists := true
    allTxtExists := true
    header := required_columns
    csvRows := [mkRow "AAPL" 0 5 6 (-20) (-10) 100]
    fullParseOk := true
    headParseOk := true
    datetimeParseOk := true
    instLines := ["AAPL"]
    allTxtReadable := true
    reportWritable := true }

/-- A one-row table with positive prices but `high < low`. -/
def badOhlcDisk : Disk :=
  { dirName := "./qlib_data"
    featuresDirExists := true
    instrumentsDirExists := true
    dataCsvExists := true
    allTxtExists := true
    header := required_columns
    csvRows := [mkRow "AAPL" 0 10 9 11 10 100]
    fullParseOk := true
    headParseOk := true
    datetimeParseOk := true
    instLines := ["AAPL"]
    allTxtReadable := true
    reportWritable := true }

/-! Helper lemmas. -/

/-- Fidelity of the integer formulation of the extreme-move test: for a
nonzero previous close it is exactly `pct_change` magnitude above 3/10. -/
theorem extremeStep_iff (p c : ℚ) (hp : p ≠ 0) :
    extremeStep p c = true ↔ |(c - p) / p| > 3 / 10 := by
  have hpnum : p.num ≠ 0 := Rat.num_ne_zero.mpr hp
  have hcden : ((c.den : ℚ)) ≠ 0 := Nat.cast_ne_zero.mpr c.den_nz
  have hpden : ((p.den : ℚ)) ≠ 0 := Nat.cast_ne_zero.mpr p.den_nz
  have hb : ((c.den : Int) * p.num) ≠ 0 :=
    mul_ne_zero (Int.natCast_ne_zero.mpr c.den_nz) hpnum
  have hcast : (((c.den : Int) * p.num : Int) : ℚ) ≠ 0 := by exact_mod_cast hb
  have hc2 : (c.num : ℚ) = c * (c.den : ℚ) := (div_eq_iff hcden).mp (Rat.num_div_den c)
  have hp2 : (p.num : ℚ) = p * (p.den : ℚ) := (div_eq_iff hpden).mp (Rat.num_div_den p)
  have key : (c - p) / p =
      ((c.num * (p.den : Int) - p.num * (c.den : Int) : Int) : ℚ) /
        (((c.den : Int) * p.num : Int) : ℚ) := by
    rw [div_eq_div_iff hp hcast]
    push_cast
    rw [hc2, hp2]
    ring
  have habs : |(c - p) / p| =
      ((|c.num * (p.den : Int) - p.num * (c.den : Int)| : Int) : ℚ) /
        ((|(c.den : Int) * p.num| : Int) : ℚ) := by
    rw [key, abs_div, ← Int.cast_abs, ← Int.cast_abs]
  have hBpos : (0 : ℚ) < ((|(c.den : Int) * p.num| : Int) : ℚ) := by
    exact_mod_cast abs_pos.mpr hb
  unfold extremeStep
  rw [if_neg hpnum, decide_eq_true_iff, habs, gt_iff_lt, gt_iff_lt,
    div_lt_div_iff₀ (by norm_num : (0 : ℚ) < 10) hBpos]
  constructor
  · intro h
    have h2 : (3 : Int) * |(c.den : Int) * p.num| <
        |c.num * (p.den : Int) - p.num * (c.den : Int)| * 10 := by
      rw [Int.abs_eq_natAbs, Int.abs_eq_natAbs]
      omega
    exact_mod_cast h2
  · intro h
    have h2 : (3 : Int) * |(c.den : Int) * p.num| <
        |c.num * (p.den : Int) - p.num * (c.den : Int)| * 10 := by exact_mod_cast h
    rw [Int.abs_eq_natAbs, Int.abs_eq_natAbs] at h2
    omega

/-- The negative-price loop appends exactly the per-column issues of
`negIssuesOn`, bumps `critical_issues` by their number and leaves
`warnings` unchanged. -/
theorem negFold_spec (data : Csv) (cols : List String) (q : QualityResults) :
    cols.foldl (negStepPure data) q =
      { critical_issues := q.critical_issues + (negIssuesOn data cols).length
        warnings := q.warnings
        issues_detail := q.issues_detail ++ negIssuesOn data cols } := by
  induction cols generalizing q with
  | nil => simp [negIssuesOn]
  | cons c cs ih =>
    simp only [List.foldl_cons, negIssuesOn, List.filterMap_cons]
    by_cases hc : countLeZero data c > 0
    · rw [if_pos hc]
      have hstep : negStepPure data q c = addCritical q (negIssue c (countLeZero data c)) := by
        simp [negStepPure, hc]
      rw [hstep, ih]
      simp [addCritical, negIssuesOn, QualityResults.mk.injEq, List.append_assoc]
      omega
    · rw [if_neg hc]
      have hstep : negStepPure data q c = q := by simp [negStepPure, hc]
      rw [hstep, ih]
      simp [negIssuesOn]

/-- On a table with all required columns and parseable datetimes, the
quality checker's body succeeds and returns the flat `qualitySpec`. -/
theorem qualityAfterRead_ok (d : Disk) (data : Csv)
    (hcols : ∀ c ∈ required_columns, c ∈ data.cols)
    (hdt : d.datetimeParseOk = true) :
    qualityAfterRead d data = Except.ok (qualitySpec data) := by
  have h1 : "datetime" ∈ data.cols := hcols _ (by simp [required_columns])
  have h2 : "$open" ∈ data.cols := hcols _ (by simp [required_columns])
  have h3 : "$high" ∈ data.cols := hcols _ (by simp [required_columns])
  have h4 : "$low" ∈ data.cols := hcols _ (by simp [required_columns])
  have h5 : "$close" ∈ data.cols := hcols _ (by simp [required_columns])
  have h6 : "$volume" ∈ data.cols := hcols _ (by simp [required_columns])
  have h7 : "instrument" ∈ data.cols := hcols _ (by simp [required_columns])
  simp only [qualityAfterRead, h1, h2, h3, h4, h5, h6, h7, hdt, not_true_eq_false,
    if_false, Bool.false_eq_true, ite_false, ite_true]
  rw [negFold_spec]
  refine congrArg Except.ok ?_
  simp only [qualitySpec, nullSeg, volSeg, ohlcSeg, discSeg, extSeg]
  split_ifs <;>
    simp_all [addCritical, addWarning, QualityResults.mk.injEq, List.append_assoc]

/-- Inversion: whenever the quality body succeeds, its value is the flat
`qualitySpec` of the table it read (success forces every required column
to be present and the datetimes to parse). -/
theorem qualityAfterRead_ok_inv (d : Disk) (data : Csv) (q : QualityResults)
    (h : qualityAfterRead d data = Except.ok q) : q = qualitySpec data := by
  by_cases h1 : "datetime" ∈ data.cols
  case neg =>
    unfold qualityAfterRead at h
    rw [if_pos h1] at h
    exact Except.noConfusion h
  by_cases h2 : d.datetimeParseOk = true
  case neg =>
    have h2' : d.datetimeParseOk = false := by
      cases hflag : d.datetimeParseOk <;> simp_all
    unfold qualityAfterRead at h
    rw [if_neg (not_not_intro h1), if_pos h2'] at h
    exact Except.noConfusion h
  by_cases h3 : "$open" ∈ data.cols
  case neg =>
    unfold qualityAfterRead at h
    rw [if_neg (not_not_intro h1), if_neg (by simp [h2]), if_pos h3] at h
    exact Except.noConfusion h
  by_cases h4 : "$high" ∈ data.cols
  case neg =>
    unfold qualityAfterRead at h
    rw [if_neg (not_not_intro h1), if_neg (by simp [h2]), if_neg (not_not_intro h3),
      if_pos h4] at h
    exact Except.noConfusion h
  by_cases h5 : "$low" ∈ data.cols
  case neg =>
    unfold qualityAfterRead at h
    rw [if_neg (not_not_intro h1), if_neg (by simp [h2]), if_neg (not_not_intro h3),
      if_neg (not_not_intro h4), if_pos h5] at h
    exact Except.noConfusion h
  by_cases h6 : "$close" ∈ data.cols
  case neg =>
    unfold qualityAfterRead at h
    rw [if_neg (not_not_intro h1), if_neg (by simp [h2]), if_neg (not_not_intro h3),
      if_neg (not_not_intro h4), if_neg (not_not_intro h5), if_pos h6] at h
    exact Except.noConfusion h
  by_cases h7 : "$volume" ∈ data.cols
  case neg =>
    unfold qualityAfterRead at h
    rw [if_neg (not_not_intro h1), if_neg (by simp [h2]), if_neg (not_not_intro h3),
      if_neg (not_not_intro h4), if_neg (not_not_intro h5), if_neg (not_not_intro h6),
      if_pos h7] at h
    exact Except.noConfusion h
  by_cases h8 : "instrument" ∈ data.cols
  case neg =>
    unfold qualityAfterRead at h
    rw [if_neg (not_not_intro h1), if_neg (by simp [h2]), if_neg (not_not_intro h3),
      if_neg (not_not_intro h4), if_neg (not_not_intro h5), if_neg (not_not_intro h6),
      if_neg (not_not_intro h7), if_pos h8] at h
    exact Except.noConfusion h
  have hcols : ∀ c ∈ required_columns, c ∈ data.cols := by
    intro c hc
    simp only [required_columns, List.mem_cons, List.not_mem_nil, or_false] at hc
    rcases hc with rfl | rfl | rfl | rfl | rfl | rfl | rfl
    · exact h8
    · exact h1
    · exact h3
    · exact h4
    · exact h5
    · exact h6
    · exact h7
  rw [qualityAfterRead_ok d data hcols h2] at h
  exact ((Except.ok.injEq _ _).mp h).symm

/-- With a successful read, all required columns present and parseable
datetimes, the quality checker returns the flat description. -/
theorem checkQuality_eq_spec (d : Disk) (data : Csv)
    (hread : readCsvFull d = Except.ok data)
    (hcols : ∀ c ∈ required_columns, c ∈ data.cols)
    (hdt : d.datetimeParseOk = true) :
    _check_data_quality d = qualitySpec data := by
  unfold _check_data_quality checkDataQualityBody
  rw [hread]
  dsimp only
  rw [qualityAfterRead_ok d data hcols hdt]

/-- Every member of `negIssuesOn` is a `negative_prices` issue for a
column of the list with a positive offending-row count. -/
theorem mem_negIssuesOn (data : Csv) (cols : List String) (i : Issue)
    (h : i ∈ negIssuesOn data cols) :
    ∃ c, c ∈ cols ∧ i = negIssue c (countLeZero data c) ∧ countLeZero data c > 0 := by
  rcases List.mem_filterMap.mp h with ⟨c, hc, hif⟩
  by_cases hpos : countLeZero data c > 0
  · rw [if_pos hpos] at hif
    exact ⟨c, hc, ((Option.some.injEq _ _).mp hif).symm, hpos⟩
  · rw [if_neg hpos] at hif
    exact Option.noConfusion hif

/-- All negative-price issues are critical. -/
theorem filter_crit_negIssuesOn (data : Csv) (cols : List String) :
    (negIssuesOn data cols).filter isCritIssue = negIssuesOn data cols := by
  apply List.filter_eq_self.mpr
  intro i hi
  rcases mem_negIssuesOn data cols i hi with ⟨c, _, hieq, _⟩
  subst hieq
  rfl

/-- No negative-price issue is a warning. -/
theorem filter_warn_negIssuesOn (data : Csv) (cols : List String) :
    (negIssuesOn data cols).filter isWarnIssue = [] := by
  rw [List.filter_eq_nil_iff]
  intro i hi
  rcases mem_negIssuesOn data cols i hi with ⟨c, _, hieq, _⟩
  subst hieq
  simp [isWarnIssue, negIssue]

/-- Segment filters: the null segment is all critical. -/
theorem filter_null_seg (data : Csv) :
    (nullSeg data).filter isCritIssue = nullSeg data
    ∧ (nullSeg data).filter isWarnIssue = [] := by
  unfold nullSeg
  split_ifs <;> exact ⟨rfl, rfl⟩

/-- Segment filters: the zero-volume segment is all warnings. -/
theorem filter_vol_seg (data : Csv) :
    (volSeg data).filter isCritIssue = []
    ∧ (volSeg data).filter isWarnIssue = volSeg data := by
  unfold volSeg
  split_ifs <;> exact ⟨rfl, rfl⟩

/-- Segment filters: the OHLC segment is all critical. -/
theorem filter_ohlc_seg (data : Csv) :
    (ohlcSeg data).filter isCritIssue = ohlcSeg data
    ∧ (ohlcSeg data).filter isWarnIssue = [] := by
  unfold ohlcSeg
  split_ifs <;> exact ⟨rfl, rfl⟩

/-- Segment filters: the discontinuity segment is all warnings. -/
theorem filter_disc_seg (data : Csv) :
    (discSeg data).filter isCritIssue = []
    ∧ (discSeg data).filter isWarnIssue = discSeg data := by
  unfold discSeg
  split_ifs <;> exact ⟨rfl, rfl⟩

/-- Segment filters: the extreme-move segment is all warnings. -/
theorem filter_ext_seg (data : Csv) :
    (extSeg data).filter isCritIssue = []
    ∧ (extSeg data).filter isWarnIssue = extSeg data := by
  unfold extSeg
  split_ifs <;> exact ⟨rfl, rfl⟩

/-- The flat description satisfies the counter/detail invariant. -/
theorem qualitySpec_invariant (data : Csv) :
    (qualitySpec data).critical_issues =
      ((qualitySpec data).issues_detail.filter isCritIssue).length
    ∧ (qualitySpec data).warnings =
      ((qualitySpec data).issues_detail.filter isWarnIssue).length := by
  unfold qualitySpec
  constructor
  · simp only [List.filter_append, filter_crit_negIssuesOn, (filter_null_seg data).1,
      (filter_vol_seg data).1, (filter_ohlc_seg data).1, (filter_disc_seg data).1,
      (filter_ext_seg data).1, List.length_append, List.length_nil]
    omega
  · simp only [List.filter_append, filter_warn_negIssuesOn, (filter_null_seg data).2,
      (filter_vol_seg data).2, (filter_ohlc_seg data).2, (filter_disc_seg data).2,
      (filter_ext_seg data).2, List.length_append, List.length_nil]
    omega

/-- The verdict of `validate_qlib_data` is the conjunction of the three
checks (lines 41-61). -/
theorem validate_is_valid_eq (d : Disk) (now : String) :
    (validate_qlib_data d now).1.is_valid =
      (_validate_directory_structure d && (_validate_data_files d).1 &&
        ((_check_data_quality d).critical_issues == 0)) := by
  simp only [validate_qlib_data]
  split_ifs with h1 h2 h3 <;> simp_all [beq_iff_eq] <;> omega

/-- The returned results dict does not depend on whether the report file
is writable (the report failure is caught at lines 333-334). -/
theorem validate_result_ignores_report (d : Disk) (now : String) (w : Bool) :
    (validate_qlib_data { d with reportWritable := w } now).1 =
      (validate_qlib_data d now).1 := rfl

/-- No other check produces a `negative_prices` issue for column `c`. -/
theorem filter_negFor_other_segs (data : Csv) (c : String) :
    (nullSeg data).filter (isNegIssueFor c) = []
    ∧ (volSeg data).filter (isNegIssueFor c) = []
    ∧ (ohlcSeg data).filter (isNegIssueFor c) = []
    ∧ (discSeg data).filter (isNegIssueFor c) = []
    ∧ (extSeg data).filter (isNegIssueFor c) = [] := by
  unfold nullSeg volSeg ohlcSeg discSeg extSeg
  refine ⟨?_, ?_, ?_, ?_, ?_⟩ <;> split_ifs <;> rfl

/-- The negative-price loop produces exactly one issue for an offending
column. -/
theorem filter_negIssuesOn_col (data : Csv) (c : String) (hc : c ∈ price_columns)
    (hpos : countLeZero data c > 0) :
    (negIssuesOn data price_columns).filter (isNegIssueFor c)
      = [negIssue c (countLeZero data c)] := by
  simp only [price_columns, List.mem_cons, List.not_mem_nil, or_false] at hc
  rcases hc with rfl | rfl | rfl | rfl <;>
    (unfold negIssuesOn price_columns
     simp only [List.filterMap_cons, List.filterMap_nil]
     split_ifs <;> first | rfl | simp_all)

/-- No check other than the OHLC logic check produces an
`illogical_ohlc` issue. -/
theorem filter_ohlc_other_segs (data : Csv) :
    (nullSeg data).filter isOhlcIssue = []
    ∧ (negIssuesOn data price_columns).filter isOhlcIssue = []
    ∧ (volSeg data).filter isOhlcIssue = []
    ∧ (discSeg data).filter isOhlcIssue = []
    ∧ (extSeg data).filter isOhlcIssue = [] := by
  refine ⟨?_, ?_, ?_, ?_, ?_⟩
  · unfold nullSeg
    split_ifs <;> rfl
  · rw [List.filter_eq_nil_iff]
    intro i hi
    rcases mem_negIssuesOn data price_columns i hi with ⟨col, _, hieq, _⟩
    subst hieq
    simp [isOhlcIssue, negIssue]
  · unfold volSeg
    split_ifs <;> rfl
  · unfold discSeg
    split_ifs <;> rfl
  · unfold extSeg
    split_ifs <;> rfl

/-- A witnessed offending row makes the offending-row count positive. -/
theorem countLeZero_pos (data : Csv) (c : String) (r : Row) (hr : r ∈ data.rows)
    (hl : le0 (Row.col r c) = true) : countLeZero data c > 0 := by
  unfold countLeZero
  exact List.length_pos_of_mem (List.mem_filter.mpr ⟨hr, hl⟩)

/-- A witnessed violating row makes the OHLC violation count positive. -/
theorem illogicalCount_pos (data : Csv) (r : Row) (hr : r ∈ data.rows)
    (hl : rowIllogical r = true) : illogicalCount data > 0 := by
  unfold illogicalCount
  exact List.length_pos_of_mem (List.mem_filter.mpr ⟨hr, hl⟩)

/-- The boolean verdict of the data-file check does not depend on the
content of the instrument list: only on its readability, the feature
table and the datetime parse flag. -/
theorem dataFiles_fst_ignores_instruments (d : Disk) (ls ls' : List String) :
    (_validate_data_files (setInstruments d ls)).1 =
      (_validate_data_files (setInstruments d ls')).1 := by
  have hr : readCsvFull (setInstruments d ls) = readCsvFull d := rfl
  have hr' : readCsvFull (setInstruments d ls') = readCsvFull d := rfl
  unfold _validate_data_files validateDataFilesBody
  rw [hr, hr']
  cases readCsvFull d with
  | error e => rfl
  | ok data =>
    dsimp only
    unfold dataFilesAfterRead readInstruments setInstruments
    dsimp only
    split_ifs <;> rfl

/-- The quality checker does not read the instrument list at all. -/
theorem quality_ignores_instruments (d : Disk) (ls : List String) :
    _check_data_quality (setInstruments d ls) = _check_data_quality d := rfl

/-- The structural check does not read the instrument list. -/
theorem structure_ignores_instruments (d : Disk) (ls : List String) :
    _validate_directory_structure (setInstruments d ls) =
      _validate_directory_structure d := rfl

/-- The counted data-file check returns the uncounted result and
performs exactly one feature-table read. -/
theorem validateDataFilesCounted_spec (d : Disk) (n : Nat) :
    (validateDataFilesCounted d n).1 = _validate_data_files d
    ∧ (validateDataFilesCounted d n).2 = n + 1 := by
  unfold validateDataFilesCounted readFeatureCsvCounted _validate_data_files
    validateDataFilesBody
  cases readCsvFull d with
  | error e => exact ⟨rfl, rfl⟩
  | ok data =>
    dsimp only
    cases dataFilesAfterRead d data with
    | error e => exact ⟨rfl, rfl⟩
    | ok r => exact ⟨rfl, rfl⟩

/-- The counted quality check returns the uncounted result and performs
exactly one feature-table read. -/
theorem checkDataQualityCounted_spec (d : Disk) (n : Nat) :
    (checkDataQualityCounted d n).1 = _check_data_quality d
    ∧ (checkDataQualityCounted d n).2 = n + 1 := by
  unfold checkDataQualityCounted readFeatureCsvCounted _check_data_quality
    checkDataQualityBody
  cases readCsvFull d with
  | error e => exact ⟨rfl, rfl⟩
  | ok data =>
    dsimp only
    cases qualityAfterRead d data with
    | error e => exact ⟨rfl, rfl⟩
    | ok q => exact ⟨rfl, rfl⟩

/-! Claim theorems. -/

/-- C1: for every data directory, the `is_valid` flag of the results
returned by `validate_qlib_data` is true exactly when the structural
check passed, the data-file/consistency check passed and the quality
checker reported zero critical issues. -/
theorem validate_verdict_conjunction (d : Disk) (now : String) :
    (validate_qlib_data d now).1.is_valid =
      (_validate_directory_structure d && (_validate_data_files d).1 &&
        ((_check_data_quality d).critical_issues == 0)) :=
  validate_is_valid_eq d now

/-- C2: every modelled failure mode (missing directories or files make
the structural check fail; an unreadable or malformed feature table, a
missing column, an unreadable instrument list or unparseable datetimes
make the data-file check return false) degrades to a returned results
dict with `is_valid = false` and a corresponding `errors` entry — there
is no exception path out of `validate_qlib_data`, which is a total
function because every sub-check catches its own exceptions — and a
report-write failure never changes the returned dict. -/
theorem validate_degrades_never_raises (d : Disk) (now : String)
    (h : _validate_directory_structure d = false ∨ (_validate_data_files d).1 = false) :
    (validate_qlib_data d now).1.is_valid = false
    ∧ (validate_qlib_data d now).1.errors ≠ []
    ∧ ∀ w : Bool,
        (validate_qlib_data { d with reportWritable := w } now).1 =
          (validate_qlib_data d now).1 := by
  refine ⟨?_, ?_, fun w => validate_result_ignores_report d now w⟩ <;>
    (simp only [validate_qlib_data]
     rcases h with h | h <;> simp only [h] <;> split_ifs <;> simp_all)

/-- Witness for C2 at a directory with nothing in it. -/
theorem validate_degrades_never_raises_witness :
    _validate_directory_structure emptyDiskW = false
    ∧ (validate_qlib_data emptyDiskW "2024-01-01 00:00:00").1.is_valid = false
    ∧ (validate_qlib_data emptyDiskW "2024-01-01 00:00:00").1.errors ≠ [] :=
  ⟨by decide,
    (validate_degrades_never_raises emptyDiskW "2024-01-01 00:00:00" (Or.inl (by decide))).1,
    (validate_degrades_never_raises emptyDiskW "2024-01-01 00:00:00" (Or.inl (by decide))).2.1⟩

/-- C3 (amended): one `validate_qlib_data` run loads the feature table
from disk exactly twice — once in `_validate_data_files` (line 110) and
once in `_check_data_quality` (line 161) — never once; the structural
check and the report builder perform no feature-table read, and the
counted run returns exactly the uncounted results. -/
theorem validate_reads_feature_table_twice (d : Disk) (now : String) :
    (validateQlibDataCounted d now 0).2 = 2
    ∧ (validateQlibDataCounted d now 0).1 = validate_qlib_data d now := by
  have hd := validateDataFilesCounted_spec d 0
  have hq := checkDataQualityCounted_spec d (validateDataFilesCounted d 0).2
  constructor
  · show (validateQlibDataCounted d now 0).2 = 2
    unfold validateQlibDataCounted
    dsimp only
    rw [hq.2, hd.2]
  · unfold validateQlibDataCounted validate_qlib_data
    dsimp only
    rw [hd.1, hq.1]

/-- Counterexample to C3 as stated: on a fully healthy directory the
run performs 2 feature-table loads, not 1. -/
theorem validate_single_load_refuted :
    (validateQlibDataCounted scenarioDiskExtra "T" 0).2 = 2
    ∧ ¬ (validateQlibDataCounted scenarioDiskExtra "T" 0).2 = 1 := by
  constructor
  · decide
  · decide

/-- C4 (amended): on any physically coherent directory (a file's
existence implies its parent directory's existence) where the bounded
10-row read succeeds exactly when the full read does, `quick_check`
returns true iff `validate()`'s structural check and its required-column
presence check both pass; moreover `quick_check` only depends on the
first 10 rows of the feature table and is a total function (any modelled
exception collapses to `false`). -/
theorem quick_check_characterization (d : Disk)
    (hf : d.dataCsvExists = true → d.featuresDirExists = true)
    (hi : d.allTxtExists = true → d.instrumentsDirExists = true)
    (hp : d.headParseOk = d.fullParseOk) :
    quick_check d = (_validate_directory_structure d && validateColumnCheckPasses d)
    ∧ quick_check d = quick_check (truncateRows d 10) := by
  constructor
  · rcases d with ⟨nm, fd, idir, dc, atf, hdr, rows, fp, hpo, dt, il, ar, rwr⟩
    simp only at hf hi hp
    cases dc <;> cases atf <;> cases fp <;>
      simp_all [quick_check, quickCheckBody, readCsvHead, readCsvFull,
        _validate_directory_structure, validateColumnCheckPasses]
  · simp only [quick_check, quickCheckBody, readCsvHead, truncateRows]
    split_ifs <;> rfl

/-- Witness for C4 (amended) at the healthy scenario directory. -/
theorem quick_check_characterization_witness :
    scenarioDiskExtra.headParseOk = scenarioDiskExtra.fullParseOk
    ∧ quick_check scenarioDiskExtra =
        (_validate_directory_structure scenarioDiskExtra &&
          validateColumnCheckPasses scenarioDiskExtra) :=
  ⟨by decide,
    (quick_check_characterization scenarioDiskExtra (by decide) (by decide) (by decide)).1⟩

/-- Counterexample to C4 as stated: a feature table whose first rows
parse but whose full parse fails (a malformed line late in the file)
makes `quick_check` return true while `validate()`'s column-presence
check — which runs only after a successful full read — does not pass. -/
theorem quick_check_iff_refuted :
    quick_check lateMalformedDisk = true
    ∧ (_validate_directory_structure lateMalformedDisk &&
        validateColumnCheckPasses lateMalformedDisk) = false := by decide

/-- C5: for each price column independently, a row whose value in that
column is ≤ 0 forces exactly one critical `negative_prices` issue
naming that column, whose count is the number of offending rows, and
hence at least one critical issue overall. -/
theorem negative_prices_flagged (d : Disk) (data : Csv) (c : String)
    (hread : readCsvFull d = Except.ok data)
    (hcols : ∀ col ∈ required_columns, col ∈ data.cols)
    (hdt : d.datetimeParseOk = true)
    (hc : c ∈ price_columns)
    (hbad : ∃ r ∈ data.rows, le0 (Row.col r c) = true) :
    (_check_data_quality d).issues_detail.filter (isNegIssueFor c)
      = [negIssue c (countLeZero data c)]
    ∧ (negIssue c (countLeZero data c)).type = IssueType.critical
    ∧ (negIssue c (countLeZero data c)).column = some c
    ∧ (negIssue c (countLeZero data c)).count =
        some ((data.rows.filter (fun r => le0 (Row.col r c))).length)
    ∧ 1 ≤ (_check_data_quality d).critical_issues := by
  rcases hbad with ⟨r, hr, hl⟩
  have hpos := countLeZero_pos data c r hr hl
  rw [checkQuality_eq_spec d data hread hcols hdt]
  have hother := filter_negFor_other_segs data c
  refine ⟨?_, rfl, rfl, rfl, ?_⟩
  · simp only [qualitySpec, List.filter_append, hother.1, hother.2.1, hother.2.2.1,
      hother.2.2.2.1, hother.2.2.2.2, filter_negIssuesOn_col data c hc hpos]
    simp
  · have hmem : negIssue c (countLeZero data c) ∈ negIssuesOn data price_columns :=
      List.mem_filterMap.mpr ⟨c, hc, by rw [if_pos hpos]⟩
    have hlen := List.length_pos_of_mem hmem
    simp only [qualitySpec]
    omega

/-- Witness for C5: a one-row table with `close = -10`. -/
theorem negative_prices_flagged_witness :
    readCsvFull badPriceDisk = Except.ok ⟨required_columns, badPriceDisk.csvRows⟩
    ∧ (_check_data_quality badPriceDisk).issues_detail.filter (isNegIssueFor "$close")
        = [negIssue "$close" 1]
    ∧ 1 ≤ (_check_data_quality badPriceDisk).critical_issues := by
  have h := negative_prices_flagged badPriceDisk ⟨required_columns, badPriceDisk.csvRows⟩
    "$close" rfl (by decide) rfl (by decide)
    ⟨mkRow "AAPL" 0 5 6 (-20) (-10) 100, by decide, by decide⟩
  exact ⟨rfl, by rw [h.1]; decide, h.2.2.2.2⟩

/-- C6: at least one row satisfying the source's OHLC violation
predicate — which, on rows with all four prices present, is exactly the
negation of `high ≥ low ∧ high ≥ open ∧ high ≥ close ∧ low ≤ open ∧
low ≤ close` — forces exactly one critical `illogical_ohlc` issue whose
count is the total number of violating rows. -/
theorem illogical_ohlc_flagged (d : Disk) (data : Csv)
    (hread : readCsvFull d = Except.ok data)
    (hcols : ∀ col ∈ required_columns, col ∈ data.cols)
    (hdt : d.datetimeParseOk = true)
    (hbad : ∃ r ∈ data.rows, rowIllogical r = true) :
    (_check_data_quality d).issues_detail.filter isOhlcIssue
      = [ohlcIssue (illogicalCount data)]
    ∧ (ohlcIssue (illogicalCount data)).type = IssueType.critical
    ∧ (ohlcIssue (illogicalCount data)).count = some ((data.rows.filter rowIllogical).length)
    ∧ ∀ (rr : Row) (vo vh vl vc : ℚ),
        rr.popen = some vo → rr.phigh = some vh → rr.plow = some vl → rr.pclose = some vc →
        (rowIllogical rr = true ↔ ¬(vh ≥ vl ∧ vh ≥ vo ∧ vh ≥ vc ∧ vl ≤ vo ∧ vl ≤ vc)) := by
  rcases hbad with ⟨r, hr, hl⟩
  have hpos := illogicalCount_pos data r hr hl
  rw [checkQuality_eq_spec d data hread hcols hdt]
  have hother := filter_ohlc_other_segs data
  refine ⟨?_, rfl, rfl, ?_⟩
  · simp only [qualitySpec, List.filter_append, hother.1, hother.2.1, hother.2.2.1,
      hother.2.2.2.1, hother.2.2.2.2]
    unfold ohlcSeg
    rw [if_pos hpos]
    simp [isOhlcIssue, ohlcIssue]
  · intro rr vo vh vl vc ho hh hlw hcc
    have hval : rowIllogical rr =
        (decide (vh < vl) || decide (vh < vo) || decide (vh < vc) ||
          decide (vl > vo) || decide (vl > vc)) := by
      unfold rowIllogical optLt optGt
      rw [ho, hh, hlw, hcc]
    rw [hval]
    constructor
    · intro hcase hconj
      obtain ⟨c1, c2, c3, c4, c5⟩ := hconj
      rw [decide_eq_false (not_lt.mpr c1), decide_eq_false (not_lt.mpr c2),
        decide_eq_false (not_lt.mpr c3), decide_eq_false (not_lt.mpr c4),
        decide_eq_false (not_lt.mpr c5)] at hcase
      simp at hcase
    · intro hneg
      by_cases h1 : vh < vl
      · rw [decide_eq_true h1]
        simp
      by_cases h2 : vh < vo
      · rw [decide_eq_true h2]
        simp
      by_cases h3 : vh < vc
      · rw [decide_eq_true h3]
        simp
      by_cases h4 : vl > vo
      · rw [decide_eq_true h4]
        simp
      by_cases h5 : vl > vc
      · rw [decide_eq_true h5]
        simp
      exact absurd ⟨not_lt.mp h1, not_lt.mp h2, not_lt.mp h3, not_lt.mp h4, not_lt.mp h5⟩ hneg

/-- Witness for C6: a one-row table with `high < low`. -/
theorem illogical_ohlc_flagged_witness :
    rowIllogical (mkRow "AAPL" 0 10 9 11 10 100) = true
    ∧ (_check_data_quality badOhlcDisk).issues_detail.filter isOhlcIssue
        = [ohlcIssue 1] := by
  have h := illogical_ohlc_flagged badOhlcDisk ⟨required_columns, badOhlcDisk.csvRows⟩
    rfl (by decide) rfl ⟨mkRow "AAPL" 0 10 9 11 10 100, by decide, by decide⟩
  exact ⟨by decide, by rw [h.1]; decide⟩

/-- C7: whenever the quality checker's body raises, the checker catches
it and returns exactly one critical `quality_check_failed` issue with
`critical_issues = 1`, and the surrounding validation run completes with
`is_valid = false`. -/
theorem quality_exception_degrades (d : Disk) (e : String)
    (h : checkDataQualityBody d = Except.error e) :
    _check_data_quality d = qualityFailure e
    ∧ (_check_data_quality d).critical_issues = 1
    ∧ (_check_data_quality d).issues_detail =
        [{ type := IssueType.critical, issue := "quality_check_failed", error := some e }]
    ∧ ∀ now, (validate_qlib_data d now).1.is_valid = false := by
  have h1 : _check_data_quality d = qualityFailure e := by
    unfold _check_data_quality
    rw [h]
  refine ⟨h1, by rw [h1]; rfl, by rw [h1]; rfl, fun now => ?_⟩
  rw [validate_is_valid_eq d now, h1]
  simp [qualityFailure]

/-- Witness for C7: a missing feature table makes the body raise. -/
theorem quality_exception_degrades_witness :
    checkDataQualityBody emptyDiskW = Except.error "FileNotFoundError: features/data.csv"
    ∧ (_check_data_quality emptyDiskW).critical_issues = 1
    ∧ (validate_qlib_data emptyDiskW "2024-01-01 00:00:00").1.is_valid = false :=
  ⟨rfl, (quality_exception_degrades emptyDiskW _ rfl).2.1,
    (quality_exception_degrades emptyDiskW _ rfl).2.2.2 "2024-01-01 00:00:00"⟩

/-- C8: the instrument list is advisory — replacing its content never
changes the data-file check's verdict nor `is_valid` — and on the clean
two-instrument table with one extra listed symbol the run stays valid
with `missing_in_data = 1` in `stats`. -/
theorem instrument_list_advisory (d : Disk) (now : String) (ls ls' : List String) :
    (_validate_data_files (setInstruments d ls)).1 =
      (_validate_data_files (setInstruments d ls')).1
    ∧ (validate_qlib_data (setInstruments d ls) now).1.is_valid
        = (validate_qlib_data (setInstruments d ls') now).1.is_valid
    ∧ (validate_qlib_data scenarioDiskExtra now).1.is_valid = true
    ∧ Option.map Stats.missing_in_data (validate_qlib_data scenarioDiskExtra now).1.stats
        = some 1 := by
  have h1 := dataFiles_fst_ignores_instruments d ls ls'
  have hfix : (validate_qlib_data scenarioDiskExtra now).1 =
      (validate_qlib_data scenarioDiskExtra "").1 := rfl
  refine ⟨h1, ?_, ?_, ?_⟩
  · rw [validate_is_valid_eq, validate_is_valid_eq, h1,
      quality_ignores_instruments d ls, quality_ignores_instruments d ls',
      structure_ignores_instruments d ls, structure_ignores_instruments d ls']
  · rw [hfix]; decide
  · rw [hfix]; decide

/-- C9 (amended): the returned results dict is identical across runs on
an unchanged directory (it carries no timestamp), and the two report
files are identical except for the embedded timestamp: each is the fixed
prefix, then the formatted run time, then a suffix determined by the
results and the directory alone — so they are byte-identical exactly
when the two runs format the same timestamp. -/
theorem validate_deterministic_up_to_timestamp (d : Disk) (t1 t2 : String) :
    (validate_qlib_data d t1).1 = (validate_qlib_data d t2).1
    ∧ ∃ pre post,
        (validate_qlib_data d t1).2 =
          (if d.reportWritable then some (pre ++ t1 ++ post) else none)
        ∧ (validate_qlib_data d t2).2 =
          (if d.reportWritable then some (pre ++ t2 ++ post) else none) := by
  exact ⟨rfl, reportPrefix, reportAfterTimestamp (validate_qlib_data d t1).1 d.dirName,
    rfl, rfl⟩

/-- Counterexample to C9 as stated: two runs on the same unchanged
directory at different clock readings write different report bytes (the
timestamp line differs). -/
theorem report_bytes_differ_across_runs :
    (validate_qlib_data emptyDiskW "2024-01-01 00:00:00").2
      ≠ (validate_qlib_data emptyDiskW "2024-01-01 00:00:01").2 := by decide

/-- C10: on both the normal path and the exception-degradation path, the
quality result's `critical_issues` equals the number of critical entries
of `issues_detail` and `warnings` equals the number of warning entries. -/
theorem quality_counts_match_detail (d : Disk) :
    (_check_data_quality d).critical_issues =
      ((_check_data_quality d).issues_detail.filter isCritIssue).length
    ∧ (_check_data_quality d).warnings =
      ((_check_data_quality d).issues_detail.filter isWarnIssue).length := by
  cases hb : checkDataQualityBody d with
  | error e =>
    have hq : _check_data_quality d = qualityFailure e := by
      unfold _check_data_quality
      rw [hb]
    rw [hq]
    exact ⟨rfl, rfl⟩
  | ok q =>
    have hq : _check_data_quality d = q := by
      unfold _check_data_quality
      rw [hb]
    rw [hq]
    unfold checkDataQualityBody at hb
    cases hr : readCsvFull d with
    | error e =>
      rw [hr] at hb
      exact Except.noConfusion hb
    | ok data =>
      rw [hr] at hb
      dsimp only at hb
      rw [qualityAfterRead_ok_inv d data q hb]
      exact qualitySpec_invariant data

end TA
